import Mathlib

/-!
Verification of the SurgerySupport.io client against its specification.

The repository is a thin mobile client: screens fetch rows from a remote
table API, apply small client-side computations (form validation,
status-badge selection, filtering, grouping/counting, a completion-rate
percentage) and render the result.  This file gives a shallow embedding of
exactly those client-side computations, translated from the TypeScript
source, and proves the specification's testable properties about them.

Conventions of the embedding:
* JavaScript `Date` values are compared by their underlying timestamp, so
  dates are modelled as integers (milliseconds since the epoch).
* JavaScript strings are Lean strings; `toLowerCase` is `String.toLower`,
  `includes` is the executable substring test `strIncludes` defined below.
* `Math.round` on a non-negative number is `fun q => Int.floor (q + 1/2)`
  over exact rationals.
* A fallible remote call is a function returning `Option` of an error
  value; screens are modelled as pure functions from the form state and
  the remote call's behaviour to the pair (network call issued?, resulting
  error state).
-/

/-! ## Timeline screen: task badges (src/app/(tabs)/timeline.tsx) -/

/-- A recovery-task row as the timeline screen renders it.  `due_date` is
the parsed timestamp of the task's due date. -/
structure RecoveryTask where
  title : String
  description : String
  due_date : Int
  completed : Bool
deriving DecidableEq

/-- The badge text rendered for a task on the timeline screen:
`task.completed ? "Completed" : new Date(task.due_date) < new Date() ?
"Overdue" : "Pending"`, with `now` the timestamp of `new Date()`. -/
def taskBadge (task : RecoveryTask) (now : Int) : String :=
  if task.completed then "Completed"
  else if task.due_date < now then "Overdue"
  else "Pending"

/-! ## Analytics screen: task statistics (src/app/(provider)/analytics.tsx) -/

/-- `Math.round` of a non-negative JavaScript number, over exact
rationals: the nearest integer, halves rounded up. -/
def jsRound (q : ℚ) : ℤ :=
  Int.floor (q + 1 / 2)

/-- `tasks.filter(t => t.completed).length` from `loadTaskStats`. -/
def completedCount (tasks : List RecoveryTask) : Nat :=
  (tasks.filter (fun t => t.completed)).length

/-- `tasks.filter(t => !t.completed && new Date(t.due_date) < now).length`
from `loadTaskStats`. -/
def overdueCount (tasks : List RecoveryTask) (now : Int) : Nat :=
  (tasks.filter (fun t => !t.completed && decide (t.due_date < now))).length

/-- The task-completion rate computed by `loadTaskStats`:
`tasks.length > 0 ? Math.round((completedTasks / tasks.length) * 100) : 0`. -/
def taskCompletionRate (tasks : List RecoveryTask) : ℤ :=
  if 0 < tasks.length then
    jsRound (((completedCount tasks : ℚ) / (tasks.length : ℚ)) * 100)
  else 0

/-- Modelled from the spec's words (section 8, property 4): the
task-completion percentage "equals round(completed/total × 100), with 0
when total is 0". -/
def specCompletionRate (completed total : Nat) : ℤ :=
  if total = 0 then 0 else jsRound ((completed : ℚ) / (total : ℚ) * 100)

/-! ## String utilities shared by several screens -/

/-- Does `hay` start with `needle`?  Executable helper for the substring
test below. -/
def startsWithChars : List Char → List Char → Bool
  | [], _ => true
  | _ :: _, [] => false
  | a :: as, b :: bs => a == b && startsWithChars as bs

/-- Does the character list contain `needle` as a contiguous run? -/
def containsChars (needle : List Char) : List Char → Bool
  | [] => needle.isEmpty
  | b :: bs => startsWithChars needle (b :: bs) || containsChars needle bs

/-- JavaScript `hay.includes(needle)`: substring containment. -/
def strIncludes (hay needle : String) : Bool :=
  containsChars needle.data hay.data

/-- Drop leading whitespace characters. -/
def dropLeadingWS : List Char → List Char
  | [] => []
  | c :: cs => if c.isWhitespace then dropLeadingWS cs else c :: cs

/-- JavaScript `s.trim()`: strip whitespace from both ends. -/
def jsTrim (s : String) : String :=
  String.mk (List.reverse (dropLeadingWS (List.reverse (dropLeadingWS s.data))))

/-! ## Sign-in screen (src/app/(auth)/sign-in.tsx) -/

/-- Reachability state of the one-pass matcher for the email pattern
`\S+@\S+\.\S+` used by both auth screens: which stages of the pattern can
end at the character just consumed. -/
structure EmailMatchState where
  seenLocal : Bool
  seenAtSign : Bool
  seenDomain : Bool
  seenDot : Bool
  found : Bool
deriving DecidableEq

/-- One step of the email-pattern matcher.  `\S` is any non-whitespace
character; the pattern is unanchored, so a new match may start at any
position. -/
def emailMatchStep (st : EmailMatchState) (c : Char) : EmailMatchState :=
  let ns := !c.isWhitespace
  { seenLocal := ns
    seenAtSign := st.seenLocal && c == '@'
    seenDomain := (st.seenAtSign || st.seenDomain) && ns
    seenDot := st.seenDomain && c == '.'
    found := st.found || (st.seenDot && ns) }

/-- `/\S+@\S+\.\S+/.test(email)` from `validateForm`. -/
def emailPatternTest (s : String) : Bool :=
  (s.data.foldl emailMatchStep ⟨false, false, false, false, false⟩).found

/-- Field-level error state of the sign-in screen (`errors` in
`SignInScreen`); a field absent from the object is `none`. -/
structure SignInErrors where
  email : Option String := none
  password : Option String := none
  general : Option String := none
deriving DecidableEq

/-- An error value returned by the remote `signIn` call; `message` is
`none` when the error object carries no message. -/
structure SignInError where
  message : Option String
deriving DecidableEq

namespace SignInScreen

/-- `validateForm` of the sign-in screen: the `newErrors` object it
builds from the two fields. -/
def validateForm (email password : String) : SignInErrors :=
  { email :=
      if email = "" then some "Email is required"
      else if !emailPatternTest email then some "Please enter a valid email"
      else none
    password := if password = "" then some "Password is required" else none
    general := none }

/-- `Object.keys(newErrors).length === 0`: no field of the error object
is set. -/
def isValid (e : SignInErrors) : Bool :=
  e.email.isNone && e.password.isNone && e.general.isNone

/-- The mapping `handleSignIn` applies to a remote error's message before
displaying it: known phrases are re-mapped by substring match, a missing
or falsy (empty) message falls back to a generic string, and any other
message is shown unchanged. -/
def displayedError (message : Option String) : String :=
  let has (phrase : String) : Bool :=
    match message with
    | some m => strIncludes m phrase
    | none => false
  if has "Invalid login credentials" || has "Invalid email or password" then
    "Invalid email or password. Please try again."
  else if has "Email not confirmed" then
    "Please check your email and confirm your account before signing in."
  else
    match message with
    | some m => if m = "" then "Sign in failed. Please try again." else m
    | none => "Sign in failed. Please try again."

/-- `handleSignIn`, as a function of the form fields and of the remote
call's behaviour.  Returns (was the remote `signIn` call issued?, the
resulting error state).  When validation fails the function returns
early with the validation errors and never touches the network. -/
def handleSignIn (email password : String)
    (signIn : String → String → Option SignInError) : Bool × SignInErrors :=
  let errs := validateForm email password
  if isValid errs then
    match signIn email password with
    | some error => (true, { general := some (displayedError error.message) })
    | none => (true, {})
  else (false, errs)

end SignInScreen

/-! ## Sign-up screen (src/app/(auth)/sign-up.tsx) -/

/-- Field-level error state of the sign-up screen (`errors` in
`SignUpScreen`). -/
structure SignUpErrors where
  email : Option String := none
  password : Option String := none
  confirmPassword : Option String := none
  fullName : Option String := none
  general : Option String := none
deriving DecidableEq

/-- An error value returned by the remote `signUp` call. -/
structure SignUpError where
  message : Option String
deriving DecidableEq

/-- The profile metadata `handleSignUp` passes to the remote `signUp`
call. -/
structure SignUpMetadata where
  full_name : String
  role : String
  region : String
deriving DecidableEq

namespace SignUpScreen

/-- `validateForm` of the sign-up screen: the `newErrors` object it
builds from the four fields. -/
def validateForm (fullName email password confirmPassword : String) : SignUpErrors :=
  { fullName := if jsTrim fullName = "" then some "Full name is required" else none
    email :=
      if email = "" then some "Email is required"
      else if !emailPatternTest email then some "Please enter a valid email"
      else none
    password :=
      if password = "" then some "Password is required"
      else if password.length < 8 then some "Password must be at least 8 characters"
      else none
    confirmPassword :=
      if confirmPassword = "" then some "Please confirm your password"
      else if password ≠ confirmPassword then some "Passwords do not match"
      else none
    general := none }

/-- `Object.keys(newErrors).length === 0` for the sign-up error object. -/
def isValid (e : SignUpErrors) : Bool :=
  e.email.isNone && e.password.isNone && e.confirmPassword.isNone &&
    e.fullName.isNone && e.general.isNone

/-- The error state `handleSignUp` sets from a remote error: duplicate
accounts and password/email-related messages are routed to a field by
substring match, everything else (or a falsy message) becomes a general
message. -/
def displayedError (message : Option String) : SignUpErrors :=
  let has (phrase : String) : Bool :=
    match message with
    | some m => strIncludes m phrase
    | none => false
  if has "already registered" || has "already exists" then
    { general := some "An account with this email already exists. Please sign in instead." }
  else if has "Password" then { password := message }
  else if has "Email" then { email := message }
  else
    match message with
    | some m =>
        if m = "" then { general := some "Failed to create account. Please try again." }
        else { general := some m }
    | none => { general := some "Failed to create account. Please try again." }

/-- `handleSignUp`, as a function of the form fields and of the remote
call's behaviour.  Returns (was the remote `signUp` call issued?, the
resulting error state).  Validation failure returns early, before any
network call. -/
def handleSignUp (fullName email password confirmPassword : String)
    (signUp : String → String → SignUpMetadata → Option SignUpError) :
    Bool × SignUpErrors :=
  let errs := validateForm fullName email password confirmPassword
  if isValid errs then
    match signUp email password ⟨jsTrim fullName, "patient", "AU"⟩ with
    | some error => (true, displayedError error.message)
    | none => (true, {})
  else (false, errs)

end SignUpScreen

/-! ## Patients screen (src/app/(provider)/patients.tsx) -/

/-- The fields of a patient profile row that `filterPatients` and the
patients screen inspect. -/
structure Patient where
  full_name : String
  email : String
  region : String
deriving DecidableEq

/-- `filterPatients` from the patients screen: when the search query is
truthy (non-empty), keep patients whose lower-cased name or email
includes the lower-cased query; when the selected region is not "all",
keep patients whose region equals it. -/
def filterPatients (patients : List Patient) (searchQuery selectedRegion : String) :
    List Patient :=
  let filtered := patients
  let filtered :=
    if searchQuery ≠ "" then
      filtered.filter fun patient =>
        strIncludes patient.full_name.toLower searchQuery.toLower ||
          strIncludes patient.email.toLower searchQuery.toLower
    else filtered
  let filtered :=
    if selectedRegion ≠ "all" then
      filtered.filter fun patient => patient.region == selectedRegion
    else filtered
  filtered

/-! ## Analytics screen: grouping reductions (src/app/(provider)/analytics.tsx)

The three `reduce` calls in `loadPlanStats`, `loadRegionStats` and
`loadMonthlyStats` share one shape: scan the rows, and for each row's key
either increment the entry already found for that key (`existing.count++`)
or push a fresh `(key, 1)` entry.  `groupCounts` is that shape over the
list of keys; the three screen-level functions instantiate it with the
key each reduce extracts from its row. -/

/-- Increment the count of the first entry whose key matches, leaving the
rest untouched: the effect of `existing.count++` on the accumulator when
`find` succeeds. -/
def incFirst : List (String × Nat) → String → List (String × Nat)
  | [], _ => []
  | p :: ps, k => if p.1 == k then (p.1, p.2 + 1) :: ps else p :: incFirst ps k

/-- One step of the grouping reduce: `acc.find(...)` then either
`existing.count++` or a push of a fresh entry with count 1. -/
def groupStep (acc : List (String × Nat)) (k : String) : List (String × Nat) :=
  match acc.find? (fun p => p.1 == k) with
  | some _ => incFirst acc k
  | none => acc ++ [(k, 1)]

/-- The whole grouping reduce over a list of keys, starting from the
empty accumulator. -/
def groupCounts (keys : List String) : List (String × Nat) :=
  keys.foldl groupStep []

/-- A surgery-plan row as `loadPlanStats` selects it (`select('status')`). -/
structure PlanRow where
  status : String
deriving DecidableEq

/-- A profile row as `loadRegionStats` selects it (`select('region')`). -/
structure RegionRow where
  region : String
deriving DecidableEq

/-- A calendar date as far as the monthly-registration grouping needs it:
`new Date(created_at)`'s year and zero-based month. -/
structure RegistrationDate where
  year : Nat
  month : Nat
deriving DecidableEq

/-- A profile row as `loadMonthlyStats` selects it
(`select('created_at')`), with the timestamp already parsed. -/
structure CreatedRow where
  created_at : RegistrationDate
deriving DecidableEq

/-- The `en-US` short month name used by `toLocaleDateString` with the
numeric-year, short-month options. -/
def monthShortName : Nat → String
  | 0 => "Jan"
  | 1 => "Feb"
  | 2 => "Mar"
  | 3 => "Apr"
  | 4 => "May"
  | 5 => "Jun"
  | 6 => "Jul"
  | 7 => "Aug"
  | 8 => "Sep"
  | 9 => "Oct"
  | 10 => "Nov"
  | 11 => "Dec"
  | _ => ""

/-- The month key `loadMonthlyStats` groups by, e.g. "Jan 2026". -/
def monthLabel (d : RegistrationDate) : String :=
  monthShortName d.month ++ " " ++ toString d.year

/-- `plansByStatus`: the reduce in `loadPlanStats`, grouping plan rows by
their `status`. -/
def plansByStatus (plans : List PlanRow) : List (String × Nat) :=
  groupCounts (plans.map PlanRow.status)

/-- `patientsByRegion`: the reduce in `loadRegionStats`, grouping patient
profile rows by their `region`. -/
def patientsByRegion (profiles : List RegionRow) : List (String × Nat) :=
  groupCounts (profiles.map RegionRow.region)

/-- `monthlyRegistrations`: the reduce in `loadMonthlyStats`, grouping
patient profiles by the month label of their registration date. -/
def monthlyRegistrations (profiles : List CreatedRow) : List (String × Nat) :=
  groupCounts (profiles.map (fun p => monthLabel p.created_at))

/-- The count the grouping reduce has recorded for key `k`: the `count`
of the first accumulator entry `find` would locate for `k`. -/
def lookupCount (acc : List (String × Nat)) (k : String) : Option Nat :=
  (acc.find? (fun p => p.1 == k)).map Prod.snd

/-! ## Theorems -/

/-- Claim C1: for every recovery task rendered on the timeline screen, the
badge is "Completed" exactly when the task's `completed` field is true,
"Overdue" exactly when the task is not completed and its due date is
strictly before the current time, and "Pending" exactly in the remaining
case (not completed and due date at or after the current time). -/
theorem taskBadge_cases (task : RecoveryTask) (now : Int) :
    (taskBadge task now = "Completed" ↔ task.completed = true) ∧
    (taskBadge task now = "Overdue" ↔ (task.completed = false ∧ task.due_date < now)) ∧
    (taskBadge task now = "Pending" ↔ (task.completed = false ∧ now ≤ task.due_date)) := by
  unfold taskBadge
  rcases h : task.completed with _ | _
  · by_cases hlt : task.due_date < now
    · simp [hlt]
    · simp [hlt, not_lt.mp hlt]
  · simp

/-- Claim C2: the analytics screen's task completion rate equals
round(completed/total × 100) and equals 0 when the total is 0. -/
theorem taskCompletionRate_spec (tasks : List RecoveryTask) :
    taskCompletionRate tasks = specCompletionRate (completedCount tasks) tasks.length ∧
    (tasks.length = 0 → taskCompletionRate tasks = 0) ∧
    (0 < tasks.length →
      taskCompletionRate tasks =
        jsRound ((completedCount tasks : ℚ) / (tasks.length : ℚ) * 100)) := by
  refine ⟨?_, ?_, ?_⟩
  · unfold taskCompletionRate specCompletionRate
    rcases Nat.eq_zero_or_pos tasks.length with h | h
    · simp [h]
    · simp [h, Nat.pos_iff_ne_zero.mp h]
  · intro h
    unfold taskCompletionRate
    simp [h]
  · intro h
    unfold taskCompletionRate
    simp [h]

/-- Claim C3: submitting the sign-in form with an empty password sets the
field-level error "Password is required" and never issues the remote
`signIn` call, whatever the email field holds and whatever the remote
call would have answered. -/
theorem signIn_empty_password_blocks (email : String)
    (signIn : String → String → Option SignInError) :
    (SignInScreen.handleSignIn email "" signIn).1 = false ∧
    (SignInScreen.handleSignIn email "" signIn).2.password = some "Password is required" := by
  unfold SignInScreen.handleSignIn SignInScreen.isValid SignInScreen.validateForm
  simp

/-- Counterexample to claim C4 as stated: with a non-empty password and
an empty confirmation field the two fields hold different strings, yet
the screen shows "Please confirm your password" on the confirmation
field, not "Passwords do not match". -/
theorem signUp_mismatch_counterexample :
    ("longpassword" : String) ≠ "" ∧
    (SignUpScreen.handleSignUp "Jane Doe" "jane@example.com" "longpassword" ""
        (fun _ _ _ => none)).2
      = { confirmPassword := some "Please confirm your password" } ∧
    (SignUpScreen.handleSignUp "Jane Doe" "jane@example.com" "longpassword" ""
        (fun _ _ _ => none)).2.confirmPassword ≠ some "Passwords do not match" := by
  refine ⟨by decide, by decide, by decide⟩

/-- Claim C4 as amended: when the confirmation field is non-empty and
differs from the password, the sign-up screen shows "Passwords do not
match" on the confirmation field; and whenever the two fields differ
(including an empty confirmation field, which instead shows "Please
confirm your password") submission is blocked and the remote `signUp`
call is never issued. -/
theorem signUp_mismatch_blocks (fullName email password confirmPassword : String)
    (signUp : String → String → SignUpMetadata → Option SignUpError)
    (hne : password ≠ confirmPassword) :
    (confirmPassword ≠ "" →
      (SignUpScreen.validateForm fullName email password confirmPassword).confirmPassword
        = some "Passwords do not match") ∧
    (SignUpScreen.handleSignUp fullName email password confirmPassword signUp).1 = false := by
  constructor
  · intro hc
    unfold SignUpScreen.validateForm
    simp [hc, hne]
  · unfold SignUpScreen.handleSignUp SignUpScreen.isValid SignUpScreen.validateForm
    by_cases hc : confirmPassword = ""
    · simp [hc]
    · simp [hc, hne]

/-- Witness for the amended C4 at concrete mismatching fields. -/
theorem signUp_mismatch_blocks_witness :
    ("abcdefgh" : String) ≠ "abcdefgX" ∧
    (("abcdefgX" : String) ≠ "" →
      (SignUpScreen.validateForm "Jane Doe" "jane@example.com" "abcdefgh" "abcdefgX").confirmPassword
        = some "Passwords do not match") ∧
    (SignUpScreen.handleSignUp "Jane Doe" "jane@example.com" "abcdefgh" "abcdefgX"
        (fun _ _ _ => none)).1 = false :=
  ⟨by decide,
   signUp_mismatch_blocks "Jane Doe" "jane@example.com" "abcdefgh" "abcdefgX"
     (fun _ _ _ => none) (by decide)⟩

/-- Claim C8: a non-empty password shorter than 8 characters sets the
field-level error "Password must be at least 8 characters" and blocks
submission: the remote `signUp` call is never issued. -/
theorem signUp_short_password_blocks (fullName email password confirmPassword : String)
    (signUp : String → String → SignUpMetadata → Option SignUpError)
    (hne : password ≠ "") (hlen : password.length < 8) :
    (SignUpScreen.validateForm fullName email password confirmPassword).password
      = some "Password must be at least 8 characters" ∧
    (SignUpScreen.handleSignUp fullName email password confirmPassword signUp).1 = false := by
  constructor
  · unfold SignUpScreen.validateForm
    simp [hne, hlen]
  · unfold SignUpScreen.handleSignUp SignUpScreen.isValid SignUpScreen.validateForm
    simp [hne, hlen]

/-- Witness for C8 at a concrete six-character password. -/
theorem signUp_short_password_blocks_witness :
    ("short1" : String) ≠ "" ∧ ("short1" : String).length < 8 ∧
    ((SignUpScreen.validateForm "Jane Doe" "jane@example.com" "short1" "short1").password
        = some "Password must be at least 8 characters" ∧
      (SignUpScreen.handleSignUp "Jane Doe" "jane@example.com" "short1" "short1"
          (fun _ _ _ => none)).1 = false) :=
  ⟨by decide, by decide,
   signUp_short_password_blocks "Jane Doe" "jane@example.com" "short1" "short1"
     (fun _ _ _ => none) (by decide) (by decide)⟩

/-- Counterexample to claim C6 as stated: an error whose message is the
empty string matches none of the known phrases, so the claim says it is
shown unchanged; the screen instead shows the generic fallback "Sign in
failed. Please try again.". -/
theorem signIn_error_counterexample :
    strIncludes "" "Invalid login credentials" = false ∧
    strIncludes "" "Invalid email or password" = false ∧
    strIncludes "" "Email not confirmed" = false ∧
    SignInScreen.displayedError (some "") = "Sign in failed. Please try again." ∧
    SignInScreen.displayedError (some "") ≠ "" := by
  refine ⟨by decide, by decide, by decide, by decide, by decide⟩

/-- Claim C6 as amended: messages containing "Invalid login credentials"
or "Invalid email or password" are shown as "Invalid email or password.
Please try again."; otherwise messages containing "Email not confirmed"
are shown as the confirm-your-account string; every other non-empty
message is shown unchanged; an absent or empty message is shown as the
generic "Sign in failed. Please try again."; and when validation passes
and the remote call errors, the screen's general error is exactly this
mapping of the error's message. -/
theorem signIn_displayedError_amended (m : String) :
    ((strIncludes m "Invalid login credentials" || strIncludes m "Invalid email or password")
        = true →
      SignInScreen.displayedError (some m) = "Invalid email or password. Please try again.") ∧
    (strIncludes m "Invalid login credentials" = false →
      strIncludes m "Invalid email or password" = false →
      strIncludes m "Email not confirmed" = true →
      SignInScreen.displayedError (some m)
        = "Please check your email and confirm your account before signing in.") ∧
    (strIncludes m "Invalid login credentials" = false →
      strIncludes m "Invalid email or password" = false →
      strIncludes m "Email not confirmed" = false →
      m ≠ "" →
      SignInScreen.displayedError (some m) = m) ∧
    SignInScreen.displayedError (some "") = "Sign in failed. Please try again." ∧
    SignInScreen.displayedError none = "Sign in failed. Please try again." ∧
    (∀ email password err,
      SignInScreen.isValid (SignInScreen.validateForm email password) = true →
      (SignInScreen.handleSignIn email password (fun _ _ => some err)).2.general
        = some (SignInScreen.displayedError err.message)) := by
  refine ⟨?_, ?_, ?_, by decide, by decide, ?_⟩
  · intro h
    unfold SignInScreen.displayedError
    simp [h]
  · intro h1 h2 h3
    unfold SignInScreen.displayedError
    simp [h1, h2, h3]
  · intro h1 h2 h3 h4
    unfold SignInScreen.displayedError
    simp [h1, h2, h3, h4]
  · intro email password err hvalid
    unfold SignInScreen.handleSignIn
    simp [hvalid]

/-- Witness for the amended C6 at the concrete message "Invalid login
credentials". -/
theorem signIn_displayedError_amended_witness :
    (strIncludes "Invalid login credentials" "Invalid login credentials" ||
        strIncludes "Invalid login credentials" "Invalid email or password") = true ∧
    SignInScreen.displayedError (some "Invalid login credentials")
      = "Invalid email or password. Please try again." :=
  ⟨by decide, (signIn_displayedError_amended "Invalid login credentials").1 (by decide)⟩

/-- Claim C5: a patient is in the filtered list exactly when it is in the
loaded list, matches the case-insensitive name/email substring test
whenever the query is non-empty, and has the selected region whenever
the selection is not "all". -/
theorem filterPatients_mem (patients : List Patient) (searchQuery selectedRegion : String)
    (p : Patient) :
    p ∈ filterPatients patients searchQuery selectedRegion ↔
      p ∈ patients ∧
      (searchQuery ≠ "" →
        (strIncludes p.full_name.toLower searchQuery.toLower ||
          strIncludes p.email.toLower searchQuery.toLower) = true) ∧
      (selectedRegion ≠ "all" → p.region = selectedRegion) := by
  unfold filterPatients
  by_cases hq : searchQuery = "" <;> by_cases hr : selectedRegion = "all"
  · simp [hq, hr]
  · simp [hq, hr, List.mem_filter]
  · simp [hq, hr, List.mem_filter]
  · simp [hq, hr, List.mem_filter, and_assoc]
    tauto

/-- Claim C10: with an empty query and the "all" region `filterPatients`
returns the loaded list unchanged, and for every query and region the
filtered list is a subsequence of the loaded list. -/
theorem filterPatients_id_and_sublist (patients : List Patient)
    (searchQuery selectedRegion : String) :
    filterPatients patients "" "all" = patients ∧
    (filterPatients patients searchQuery selectedRegion).Sublist patients := by
  constructor
  · unfold filterPatients
    simp
  · unfold filterPatients
    by_cases hq : searchQuery = "" <;> by_cases hr : selectedRegion = "all"
    · simp [hq, hr]
    · simp [hq, hr]
    · simp [hq, hr]
    · simp [hq, hr]

/-- Witness for C2 at a concrete task list: three tasks, two completed. -/
theorem taskCompletionRate_spec_witness :
    (0 < ([⟨"a", "", 0, true⟩, ⟨"b", "", 0, false⟩, ⟨"c", "", 0, true⟩] :
        List RecoveryTask).length) ∧
    taskCompletionRate [⟨"a", "", 0, true⟩, ⟨"b", "", 0, false⟩, ⟨"c", "", 0, true⟩] =
      jsRound ((completedCount [⟨"a", "", 0, true⟩, ⟨"b", "", 0, false⟩, ⟨"c", "", 0, true⟩] : ℚ) /
        (([⟨"a", "", 0, true⟩, ⟨"b", "", 0, false⟩, ⟨"c", "", 0, true⟩] :
          List RecoveryTask).length : ℚ) * 100) :=
  ⟨by decide,
   (taskCompletionRate_spec [⟨"a", "", 0, true⟩, ⟨"b", "", 0, false⟩, ⟨"c", "", 0, true⟩]).2.2
     (by decide)⟩

/-! ## Lemmas about the grouping reduce -/

/-- Incrementing an entry's count never changes the keys. -/
theorem incFirst_map_fst (acc : List (String × Nat)) (k : String) :
    (incFirst acc k).map Prod.fst = acc.map Prod.fst := by
  induction acc with
  | nil => rfl
  | cons q qs ih =>
    unfold incFirst
    by_cases h : q.1 = k
    · simp [h]
    · simp [h, ih]

/-- How the recorded count looks one entry in. -/
theorem lookupCount_cons (q : String × Nat) (qs : List (String × Nat)) (k : String) :
    lookupCount (q :: qs) k = if q.1 = k then some q.2 else lookupCount qs k := by
  unfold lookupCount
  by_cases h : q.1 = k
  · rw [List.find?_cons_of_pos _ (by simp [h])]
    simp [h]
  · rw [List.find?_cons_of_neg _ (by simp [h])]
    simp [h]

/-- Incrementing at `k` adds one to the count recorded for `k`. -/
theorem incFirst_lookup_self (acc : List (String × Nat)) (k : String) :
    lookupCount (incFirst acc k) k = (lookupCount acc k).map (· + 1) := by
  induction acc with
  | nil => rfl
  | cons q qs ih =>
    unfold incFirst
    by_cases h : q.1 = k
    · simp [h, lookupCount_cons]
    · simp [h, lookupCount_cons, ih]

/-- Incrementing at `k` leaves every other key's count alone. -/
theorem incFirst_lookup_ne (acc : List (String × Nat)) (k k' : String) (h : k' ≠ k) :
    lookupCount (incFirst acc k) k' = lookupCount acc k' := by
  induction acc with
  | nil => rfl
  | cons q qs ih =>
    unfold incFirst
    by_cases hq : q.1 = k
    · simp [hq, lookupCount_cons, Ne.symm h]
    · simp [hq, lookupCount_cons, ih]

/-- When a matching entry exists, incrementing it adds one to the total
of the counts. -/
theorem incFirst_sum (acc : List (String × Nat)) (k : String)
    (hp : (acc.find? (fun p => p.1 == k)).isSome = true) :
    ((incFirst acc k).map Prod.snd).sum = (acc.map Prod.snd).sum + 1 := by
  induction acc with
  | nil => simp at hp
  | cons q qs ih =>
    by_cases hq : q.1 = k
    · unfold incFirst
      simp [hq]
      omega
    · rw [List.find?_cons_of_neg _ (by simp [hq])] at hp
      unfold incFirst
      simp [hq, ih hp]
      omega

/-- Incrementing preserves positivity of the counts. -/
theorem incFirst_pos (acc : List (String × Nat)) (k : String)
    (h : ∀ p ∈ acc, 1 ≤ p.2) : ∀ p ∈ incFirst acc k, 1 ≤ p.2 := by
  induction acc with
  | nil => intro p hp; simp [incFirst] at hp
  | cons q qs ih =>
    intro p hp
    unfold incFirst at hp
    by_cases hq : q.1 = k
    · simp [hq] at hp
      rcases hp with hp | hp
      · subst hp
        exact Nat.le_add_left 1 q.2
      · exact h p (List.mem_cons_of_mem _ hp)
    · simp [hq] at hp
      rcases hp with hp | hp
      · subst hp; exact h p (List.mem_cons_self _ _)
      · exact ih (fun r hr => h r (List.mem_cons_of_mem _ hr)) p hp

/-- One grouping step keeps the keys pairwise distinct. -/
theorem groupStep_nodup (acc : List (String × Nat)) (k : String)
    (h : (acc.map Prod.fst).Nodup) : ((groupStep acc k).map Prod.fst).Nodup := by
  unfold groupStep
  cases hf : acc.find? (fun p => p.1 == k) with
  | some p => rw [incFirst_map_fst]; exact h
  | none =>
    have hnot : ∀ p ∈ acc, ¬(p.1 == k) = true := List.find?_eq_none.mp hf
    rw [List.map_append]
    refine List.Nodup.append h (List.nodup_singleton k) ?_
    intro x hx hx'
    simp at hx'
    subst hx'
    rcases List.mem_map.mp hx with ⟨p, hp, hpk⟩
    exact hnot p hp (by simp [hpk])

/-- One grouping step adds exactly one to the total of the counts. -/
theorem groupStep_sum (acc : List (String × Nat)) (k : String) :
    ((groupStep acc k).map Prod.snd).sum = (acc.map Prod.snd).sum + 1 := by
  unfold groupStep
  cases hf : acc.find? (fun p => p.1 == k) with
  | some p => exact incFirst_sum acc k (by rw [hf]; rfl)
  | none => simp

/-- One grouping step keeps every count at least one. -/
theorem groupStep_pos (acc : List (String × Nat)) (k : String)
    (h : ∀ p ∈ acc, 1 ≤ p.2) : ∀ p ∈ groupStep acc k, 1 ≤ p.2 := by
  unfold groupStep
  cases hf : acc.find? (fun p => p.1 == k) with
  | some p => exact incFirst_pos acc k h
  | none =>
    intro p hp
    rcases List.mem_append.mp hp with h1 | h1
    · exact h p h1
    · simp at h1
      subst h1
      exact le_refl 1

/-- One grouping step at key `k` records one more occurrence of `k`. -/
theorem groupStep_lookup_self (acc : List (String × Nat)) (k : String) :
    lookupCount (groupStep acc k) k = some ((lookupCount acc k).getD 0 + 1) := by
  unfold groupStep
  cases hf : acc.find? (fun p => p.1 == k) with
  | some p =>
    rw [incFirst_lookup_self]
    unfold lookupCount
    rw [hf]
    simp
  | none =>
    unfold lookupCount
    rw [List.find?_append, hf]
    simp

/-- One grouping step at key `k` leaves every other key's count alone. -/
theorem groupStep_lookup_ne (acc : List (String × Nat)) (k k' : String) (h : k' ≠ k) :
    lookupCount (groupStep acc k) k' = lookupCount acc k' := by
  unfold groupStep
  cases hf : acc.find? (fun p => p.1 == k) with
  | some p => exact incFirst_lookup_ne acc k k' h
  | none =>
    unfold lookupCount
    rw [List.find?_append]
    have : List.find? (fun p => p.1 == k') [(k, 1)] = none := by simp [Ne.symm h]
    rw [this, Option.or_none]

/-- Folding the grouping step keeps the keys pairwise distinct. -/
theorem groupFold_nodup (keys : List String) :
    ∀ acc : List (String × Nat), (acc.map Prod.fst).Nodup →
      ((keys.foldl groupStep acc).map Prod.fst).Nodup := by
  induction keys with
  | nil => intro acc h; exact h
  | cons k rest ih =>
    intro acc h
    rw [List.foldl_cons]
    exact ih _ (groupStep_nodup acc k h)

/-- Folding the grouping step adds the number of keys to the total of
the counts. -/
theorem groupFold_sum (keys : List String) :
    ∀ acc : List (String × Nat),
      ((keys.foldl groupStep acc).map Prod.snd).sum
        = (acc.map Prod.snd).sum + keys.length := by
  induction keys with
  | nil => intro acc; simp
  | cons k rest ih =>
    intro acc
    rw [List.foldl_cons, ih (groupStep acc k), groupStep_sum]
    simp
    omega

/-- Folding the grouping step keeps every count at least one. -/
theorem groupFold_pos (keys : List String) :
    ∀ acc : List (String × Nat), (∀ p ∈ acc, 1 ≤ p.2) →
      ∀ p ∈ keys.foldl groupStep acc, 1 ≤ p.2 := by
  induction keys with
  | nil => intro acc h; exact h
  | cons k rest ih =>
    intro acc h
    rw [List.foldl_cons]
    exact ih _ (groupStep_pos acc k h)

/-- Folding the grouping step over `keys` adds each key's number of
occurrences in `keys` to the count it had in the accumulator. -/
theorem groupFold_lookup (keys : List String) :
    ∀ (acc : List (String × Nat)) (k : String),
      lookupCount (keys.foldl groupStep acc) k =
        match lookupCount acc k with
        | some c => some (c + keys.count k)
        | none => if keys.count k = 0 then none else some (keys.count k) := by
  induction keys with
  | nil =>
    intro acc k
    cases h : lookupCount acc k <;> simp [h]
  | cons k0 rest ih =>
    intro acc k
    rw [List.foldl_cons, ih (groupStep acc k0) k]
    by_cases hk : k = k0
    · subst hk
      rw [groupStep_lookup_self]
      cases h : lookupCount acc k with
      | some c =>
        simp [h, List.count_cons]
        omega
      | none =>
        simp [h, List.count_cons]
        omega
    · rw [groupStep_lookup_ne acc k0 k hk]
      have hcount : (k0 :: rest).count k = rest.count k := by
        simp [List.count_cons, Ne.symm hk]
      rw [hcount]

/-- The count `groupCounts` records for `k` is exactly the number of
occurrences of `k` in the input keys, and `k` gets an entry exactly when
it occurs at all. -/
theorem groupCounts_lookup (keys : List String) (k : String) :
    lookupCount (groupCounts keys) k =
      if keys.count k = 0 then none else some (keys.count k) := by
  unfold groupCounts
  rw [groupFold_lookup keys [] k]
  rfl

/-- Every key occurring in the input appears in the grouping's output
paired with its exact number of occurrences. -/
theorem groupCounts_mem (keys : List String) (k : String) (h : k ∈ keys) :
    (k, keys.count k) ∈ groupCounts keys := by
  have hc : keys.count k ≠ 0 := Nat.pos_iff_ne_zero.mp (List.count_pos_iff.mpr h)
  have hl := groupCounts_lookup keys k
  rw [if_neg hc] at hl
  unfold lookupCount at hl
  cases hf : (groupCounts keys).find? (fun p => p.1 == k) with
  | none => rw [hf] at hl; simp at hl
  | some p =>
    rw [hf] at hl
    simp at hl
    have hmem := List.mem_of_find?_eq_some hf
    have hpk : p.1 = k := by
      have := List.find?_some hf
      simpa using this
    have hp : p = (k, keys.count k) := by
      cases p
      simp at hpk hl ⊢
      exact ⟨hpk, hl⟩
    rw [← hp]
    exact hmem

/-- Counting a key among mapped-out keys is counting the rows carrying
that key. -/
theorem count_map_key {α : Type} (f : α → String) (l : List α) (k : String) :
    (l.map f).count k = l.countP (fun x => f x == k) := by
  rw [List.count, List.countP_map]
  rfl

/-- The grouping's keys are pairwise distinct. -/
theorem groupCounts_nodup (keys : List String) :
    ((groupCounts keys).map Prod.fst).Nodup :=
  groupFold_nodup keys [] (by simp)

/-- Every count the grouping produces is at least one. -/
theorem groupCounts_pos (keys : List String) :
    ∀ p ∈ groupCounts keys, 1 ≤ p.2 :=
  groupFold_pos keys [] (by simp)

/-- The grouping's counts sum to the number of keys. -/
theorem groupCounts_sum (keys : List String) :
    ((groupCounts keys).map Prod.snd).sum = keys.length := by
  have := groupFold_sum keys []
  simpa using this

/-- Claim C7: each of the analytics screen's grouping reductions
produces, for every distinct key present in its input (surgery-plan
status, patient region, registration month), a pair of that key and the
exact number of input rows carrying that key. -/
theorem analytics_group_counts (plans : List PlanRow) (profiles : List RegionRow)
    (regs : List CreatedRow) :
    (∀ s, s ∈ plans.map PlanRow.status →
      (s, plans.countP (fun p => p.status == s)) ∈ plansByStatus plans) ∧
    (∀ r, r ∈ profiles.map RegionRow.region →
      (r, profiles.countP (fun p => p.region == r)) ∈ patientsByRegion profiles) ∧
    (∀ m, m ∈ regs.map (fun p => monthLabel p.created_at) →
      (m, regs.countP (fun p => monthLabel p.created_at == m)) ∈ monthlyRegistrations regs) := by
  refine ⟨?_, ?_, ?_⟩ <;> intro k hk
  · have h := groupCounts_mem _ _ hk
    rwa [count_map_key] at h
  · have h := groupCounts_mem _ _ hk
    rwa [count_map_key] at h
  · have h := groupCounts_mem _ _ hk
    rwa [count_map_key] at h

/-- Witness for C7 at a concrete plan list with a repeated status. -/
theorem analytics_group_counts_witness :
    ("planning" ∈ ([⟨"planning"⟩, ⟨"pre_op"⟩, ⟨"planning"⟩] : List PlanRow).map
        PlanRow.status) ∧
    ("planning", ([⟨"planning"⟩, ⟨"pre_op"⟩, ⟨"planning"⟩] : List PlanRow).countP
        (fun p => p.status == "planning")) ∈
      plansByStatus [⟨"planning"⟩, ⟨"pre_op"⟩, ⟨"planning"⟩] :=
  ⟨by decide,
   (analytics_group_counts [⟨"planning"⟩, ⟨"pre_op"⟩, ⟨"planning"⟩] [] []).1 "planning"
     (by decide)⟩

/-- Claim C9: each grouping reduction yields pairwise-distinct keys,
counts that are all at least one, and counts summing to the length of
its input list. -/
theorem analytics_group_invariants (plans : List PlanRow) (profiles : List RegionRow)
    (regs : List CreatedRow) :
    (((plansByStatus plans).map Prod.fst).Nodup ∧
      (∀ p ∈ plansByStatus plans, 1 ≤ p.2) ∧
      ((plansByStatus plans).map Prod.snd).sum = plans.length) ∧
    (((patientsByRegion profiles).map Prod.fst).Nodup ∧
      (∀ p ∈ patientsByRegion profiles, 1 ≤ p.2) ∧
      ((patientsByRegion profiles).map Prod.snd).sum = profiles.length) ∧
    (((monthlyRegistrations regs).map Prod.fst).Nodup ∧
      (∀ p ∈ monthlyRegistrations regs, 1 ≤ p.2) ∧
      ((monthlyRegistrations regs).map Prod.snd).sum = regs.length) := by
  unfold plansByStatus patientsByRegion monthlyRegistrations
  refine ⟨⟨?_, ?_, ?_⟩, ⟨?_, ?_, ?_⟩, ⟨?_, ?_, ?_⟩⟩ <;>
    first
      | exact groupCounts_nodup _
      | exact groupCounts_pos _
      | rw [groupCounts_sum, List.length_map]

/-- Witness for C9 at a concrete region list with a repeated region. -/
theorem analytics_group_invariants_witness :
    (("AU", 2) ∈ patientsByRegion [⟨"AU"⟩, ⟨"AU"⟩]) ∧
    (1 : Nat) ≤ (("AU", 2) : String × Nat).2 :=
  ⟨by decide,
   (analytics_group_invariants [] [⟨"AU"⟩, ⟨"AU"⟩] []).2.1.2.1 ("AU", 2) (by decide)⟩
